import Mathlib

/-!
Verification model of `Orange/widgets/data/owoutliers.py` (class `OWOutliers`).

The widget is UI glue around two external scikit-learn estimators
(`OneClassSVMLearner`, `EllipticEnvelopeLearner`).  We embed the widget's own
logic faithfully and treat the external fit/predict/mahalanobis machinery as
an oracle: a function from the learner specification (the parameters the
widget hands over) and the input table to an outcome, which is either a
per-row prediction vector together with per-row Mahalanobis scores, or one of
the exception kinds a fit can raise (`ValueError`, `MemoryError`, or any
other exception).

Python truthiness matters in this file: Orange's `Table` defines `__len__`
(its row count) and no `__bool__`, so `if self.data:` is false both for
`None` and for a zero-row table.  We model that with `optTruthy` below.
-/

set_option maxRecDepth 40000

namespace OWOutliers

/-- One data row: attribute values `x`, class values `y`, meta values `m`.
Orange stores these as row-aligned arrays `X`, `Y`, `metas`; a row-record
list is the same data seen row-wise. -/
structure TRow where
  x : List ℚ
  y : List ℚ
  m : List ℚ
  deriving DecidableEq, Repr

/-- An Orange `Table`: a domain (attribute / class / meta column names)
plus the rows. -/
structure Table where
  attrs : List String
  classVars : List String
  metas : List String
  rows : List TRow
  deriving DecidableEq, Repr

/-- `len(table)` in Python: the number of rows. -/
def Table.numRows (t : Table) : ℕ := t.rows.length

/-- Python truthiness of a `Table`: `bool(t)` falls back to `len(t) != 0`. -/
def Table.pyTruthy (t : Table) : Bool := !t.rows.isEmpty

/-- Python truthiness of an optional table (`self.data` may be `None`). -/
def optTruthy : Option Table → Bool
  | none => false
  | some t => t.pyTruthy

/-- `OneClassSVM, Covariance = range(2)` -/
inductive Method where
  | OneClassSVM
  | Covariance
  deriving DecidableEq, Repr

/-- `MAX_FEATURES = 1500` -/
def MAX_FEATURES : ℕ := 1500

/-- The parameters the widget passes to the external learning library
(`OneClassSVMLearner(gamma=..., nu=...)` or
`EllipticEnvelopeLearner(support_fraction=..., contamination=...)`).
`support_fraction = none` models passing Python `None`, which lets the
estimator pick its own default. -/
inductive LearnerSpec where
  | oneClassSVM (gamma : ℚ) (nu : ℚ)
  | ellipticEnvelope (support_fraction : Option ℚ) (contamination : ℚ)
  deriving DecidableEq, Repr

/-- Outcome of the external fit/predict/mahalanobis calls: success with a
per-row label vector and per-row Mahalanobis scores, or an exception.
`valueError` stands for the singular-covariance `ValueError`,
`memoryError` for `MemoryError`, `otherError` for any other exception
kind the library might raise. -/
inductive FitOutcome where
  | ok (y_pred : List ℤ) (mahal : List ℚ)
  | valueError
  | memoryError
  | otherError
  deriving DecidableEq, Repr

/-- Exception kinds that can escape a call. -/
inductive PyExc where
  | valueError
  | memoryError
  | otherError
  deriving DecidableEq, Repr

/-- The external learning library, abstracted. -/
def Oracle : Type := LearnerSpec → Table → FitOutcome

/-- The widget state: the six persisted settings, the held dataset, the
summary counts, message flags, the enabled-state of the five
Covariance-group controls, the two input/output summaries and the two
published outputs. -/
structure Widget where
  outlier_method : Method
  nu : ℕ
  gamma : ℚ
  cont : ℕ
  empirical_covariance : Bool
  support_fraction : ℚ
  data : Option Table
  n_inliers : Option ℕ
  n_outliers : Option ℕ
  warn_disabled_cov : Bool
  err_singular_cov : Bool
  err_memory : Bool
  rb_cov_enabled : Bool
  l_cov_enabled : Bool
  cont_slider_enabled : Bool
  cb_emp_cov_enabled : Bool
  support_fraction_spin_enabled : Bool
  input_summary : Option ℕ
  output_summary : Option ℕ
  out_inliers : Option Table
  out_outliers : Option Table
  deriving DecidableEq, Repr

/-- The state right after `__init__`: default settings, no data, no counts,
controls enabled, summaries `NoInput`/`NoOutput` (both modelled as `none`). -/
def initWidget : Widget where
  outlier_method := Method.OneClassSVM
  nu := 50
  gamma := 1 / 100
  cont := 10
  empirical_covariance := false
  support_fraction := 1
  data := none
  n_inliers := none
  n_outliers := none
  warn_disabled_cov := false
  err_singular_cov := false
  err_memory := false
  rb_cov_enabled := true
  l_cov_enabled := true
  cont_slider_enabled := true
  cb_emp_cov_enabled := true
  support_fraction_spin_enabled := true
  input_summary := none
  output_summary := none
  out_inliers := none
  out_outliers := none

/-! ### Control callbacks (lines 95-108) -/

/-- `nu_changed` -/
def nu_changed (w : Widget) : Widget :=
  { w with outlier_method := Method.OneClassSVM }

/-- `gamma_changed` -/
def gamma_changed (w : Widget) : Widget :=
  { w with outlier_method := Method.OneClassSVM }

/-- `cont_changed` -/
def cont_changed (w : Widget) : Widget :=
  { w with outlier_method := Method.Covariance }

/-- `support_fraction_changed` -/
def support_fraction_changed (w : Widget) : Widget :=
  { w with outlier_method := Method.Covariance }

/-- `empirical_changed` -/
def empirical_changed (w : Widget) : Widget :=
  { w with outlier_method := Method.Covariance }

/-- Adjusting the Nu slider: the gui binding stores the new value, then the
`callback` fires. -/
def adjust_nu (w : Widget) (v : ℕ) : Widget := nu_changed { w with nu := v }

/-- Adjusting the kernel-coefficient spin box. -/
def adjust_gamma (w : Widget) (v : ℚ) : Widget := gamma_changed { w with gamma := v }

/-- Adjusting the contamination slider. -/
def adjust_cont (w : Widget) (v : ℕ) : Widget := cont_changed { w with cont := v }

/-- Adjusting the support-fraction spin box. -/
def adjust_support_fraction (w : Widget) (v : ℚ) : Widget :=
  support_fraction_changed { w with support_fraction := v }

/-- Toggling the empirical-covariance ("Support fraction:") checkbox. -/
def toggle_empirical (w : Widget) : Widget :=
  empirical_changed { w with empirical_covariance := !w.empirical_covariance }

/-! ### Guard and message plumbing -/

/-- `enable_covariance(enable)` (lines 110-115): sets the enabled state of
the five Covariance-group controls. -/
def enable_covariance (w : Widget) (enable : Bool) : Widget :=
  { w with rb_cov_enabled := enable
           l_cov_enabled := enable
           cont_slider_enabled := enable
           cb_emp_cov_enabled := enable
           support_fraction_spin_enabled := enable }

/-- `OWWidget.clear_messages()`: clears every warning and error of the
widget. -/
def clear_messages (w : Widget) : Widget :=
  { w with warn_disabled_cov := false
           err_singular_cov := false
           err_memory := false }

/-- `enable_controls` (lines 126-131).  Note the Python condition
`if self.data and len(self.data.domain.attributes) > self.MAX_FEATURES`:
a `None` or zero-row table is falsy, so the guard only fires on a
non-empty table. -/
def enable_controls (w : Widget) : Widget :=
  let w1 := enable_covariance w true
  match w1.data with
  | none => w1
  | some t =>
    if t.pyTruthy && decide (t.attrs.length > MAX_FEATURES) then
      { enable_covariance { w1 with outlier_method := Method.OneClassSVM } false with
        warn_disabled_cov := true }
    else w1

/-! ### The detection run -/

/-- The learner constructed by `detect_outliers` (lines 166-174): for
`OneClassSVM`, `OneClassSVMLearner(gamma=self.gamma, nu=self.nu / 100, ...)`;
otherwise `EllipticEnvelopeLearner(support_fraction=self.support_fraction if
self.empirical_covariance else None, contamination=self.cont / 100.)`.
(The SVM learner is also handed `SklLearner.preprocessors`, the library's
standard preprocessing pipeline; that pipeline is opaque here.) -/
def mkLearner (w : Widget) : LearnerSpec :=
  if w.outlier_method = Method.OneClassSVM then
    LearnerSpec.oneClassSVM w.gamma ((w.nu : ℚ) / 100)
  else
    LearnerSpec.ellipticEnvelope
      (if w.empirical_covariance then some w.support_fraction else none)
      ((w.cont : ℚ) / 100)

/-- `amended_data(model)` (lines 180-192): for any method other than
Covariance the data is returned unchanged; for Covariance the Mahalanobis
scores are appended as one extra meta column named `"Mahalanobis"`
(`np.hstack((self.data.metas, mahal))` after transforming to the domain
with the extra meta variable). -/
def amended_data (method : Method) (t : Table) (mahal : List ℚ) : Table :=
  if method ≠ Method.Covariance then t
  else
    { t with metas := t.metas ++ ["Mahalanobis"]
             rows := (t.rows.zip mahal).map fun p => { p.1 with m := p.1.m ++ [p.2] } }

/-- `detect_outliers` (lines 165-178): build the learner from the current
settings, hand it (and the data) to the external library, and on success
pair the prediction vector with the (possibly) amended data.  Any
exception the library raises escapes. -/
def detect_outliers (o : Oracle) (w : Widget) (t : Table) :
    Except PyExc (List ℤ × Table) :=
  match o (mkLearner w) t with
  | FitOutcome.ok y_pred mahal =>
      Except.ok (y_pred, amended_data w.outlier_method t mahal)
  | FitOutcome.valueError => Except.error PyExc.valueError
  | FitOutcome.memoryError => Except.error PyExc.memoryError
  | FitOutcome.otherError => Except.error PyExc.otherError

/-- `np.where(ys == v)[0]`: the indices (in increasing order) at which the
vector `ys` holds the value `v`. -/
def whereEq (ys : List ℤ) (v : ℤ) : List ℕ :=
  match ys with
  | [] => []
  | a :: as =>
    if a = v then 0 :: (whereEq as v).map (· + 1)
    else (whereEq as v).map (· + 1)

/-- Numpy fancy indexing `rows[idx]`: the rows at the given index list, in
index-list order.  (All indices produced by `whereEq` are in range, so the
out-of-range drop of `filterMap` is never exercised.) -/
def getRows (rows : List TRow) (idx : List ℕ) : List TRow :=
  idx.filterMap fun i => rows.get? i

/-- `table[idx]`: row selection keeps the domain and selects rows. -/
def Table.selectRows (t : Table) (idx : List ℕ) : Table :=
  { t with rows := getRows t.rows idx }

/-- `_get_outliers` (lines 133-152).  Clears both error messages, runs the
detection; a `ValueError` is caught and reported as the singular-covariance
error, a `MemoryError` as the memory error (both returning `(None, None)`);
any other exception propagates (the `Except.error` case, which carries the
widget state at the point of the raise).  On success the amended data is
split by predicted label and the counts are stored. -/
def get_outliers (o : Oracle) (w : Widget) (t : Table) :
    Except (PyExc × Widget) (Widget × Option Table × Option Table) :=
  let w1 := { w with err_singular_cov := false, err_memory := false }
  match detect_outliers o w1 t with
  | Except.error PyExc.valueError =>
      Except.ok ({ w1 with err_singular_cov := true }, none, none)
  | Except.error PyExc.memoryError =>
      Except.ok ({ w1 with err_memory := true }, none, none)
  | Except.error PyExc.otherError => Except.error (PyExc.otherError, w1)
  | Except.ok (y_pred, ad) =>
      let inliers := ad.selectRows (whereEq y_pred 1)
      let outliers := ad.selectRows (whereEq y_pred (-1))
      Except.ok ({ w1 with n_inliers := some inliers.numRows
                           n_outliers := some outliers.numRows },
                 some inliers, some outliers)

/-- `summary = len(inliers) if inliers else self.info.NoOutput`:
`NoOutput` is modelled as `none`; a `None` or zero-row table is falsy. -/
def outputSummaryOf : Option Table → Option ℕ
  | none => none
  | some t => if t.pyTruthy then some t.numRows else none

/-- `commit` (lines 154-163).  Resets the counts, runs `_get_outliers` when
`self.data` is truthy, then publishes the summary and both outputs.  When
`_get_outliers` raises, the sends never execute, so the previously
published outputs stay as they were (the carried widget keeps the old
`out_inliers` / `out_outliers`). -/
def commit (o : Oracle) (w : Widget) : Except (PyExc × Widget) Widget :=
  let w1 := { w with n_inliers := none, n_outliers := none }
  match w1.data with
  | some t =>
    if t.pyTruthy then
      match get_outliers o w1 t with
      | Except.error e => Except.error e
      | Except.ok (w2, inl, outl) =>
          Except.ok { w2 with output_summary := outputSummaryOf inl
                              out_inliers := inl
                              out_outliers := outl }
    else
      Except.ok { w1 with output_summary := none
                          out_inliers := none
                          out_outliers := none }
  | none =>
      Except.ok { w1 with output_summary := none
                          out_inliers := none
                          out_outliers := none }

/-- `len(data) if data else self.info.NoOutput` in `set_data`. -/
def inputSummaryOf : Option Table → Option ℕ
  | none => none
  | some t => if t.pyTruthy then some t.numRows else none

/-- `set_data` (lines 117-124): clear all messages, store the data, set the
input summary, re-evaluate the guard, and commit.  (The `@check_sql_input`
decorator only intercepts SQL tables, which are outside this model.) -/
def set_data (o : Oracle) (w : Widget) (data : Option Table) :
    Except (PyExc × Widget) Widget :=
  let w1 := { clear_messages w with data := data, input_summary := inputSummaryOf data }
  commit o (enable_controls w1)

/-- The widget state after a call that may have propagated an exception:
in Python the widget is mutated in place, so the state at the raise is
the state the caller observes. -/
def postWidget : Except (PyExc × Widget) Widget → Widget
  | Except.ok w => w
  | Except.error (_, w) => w

/-! ### Report -/

/-- A report item value: `report_items` receives ints, floats and strings. -/
inductive RVal where
  | nat (n : ℕ)
  | rat (q : ℚ)
  | str (s : String)
  deriving DecidableEq, Repr

/-- `send_report` (lines 194-213): a no-op (empty section list) unless both
counts are set; otherwise a "Data" section (input row count and the two
counts) and a "Detection" section for the active method.  `len(self.data)`
is only reached when the counts are set, which every reachable state pairs
with a present dataset; the `Option.elim` default is never exercised there. -/
def send_report (w : Widget) : List (String × List (String × RVal)) :=
  match w.n_inliers, w.n_outliers with
  | some nIn, some nOut =>
    [("Data",
      [("Input instances", RVal.nat (w.data.elim 0 Table.numRows)),
       ("Inliers", RVal.nat nIn),
       ("Outliers", RVal.nat nOut)]),
     if w.outlier_method = Method.OneClassSVM then
       ("Detection",
        [("Detection method", RVal.str "One class SVM with non-linear kernel (RBF)"),
         ("Regularization (nu)", RVal.nat w.nu),
         ("Kernel coefficient", RVal.rat w.gamma)])
     else
       ("Detection",
        [("Detection method", RVal.str "Covariance estimator"),
         ("Contamination", RVal.nat w.cont),
         ("Support fraction", RVal.rat w.support_fraction)])]
  | _, _ => []

/-! ### Concrete sample instances (for evaluating the theorems) -/

/-- A sample row. -/
def row0 : TRow := ⟨[1], [0], [5]⟩

/-- A second sample row. -/
def row1 : TRow := ⟨[2], [0], [6]⟩

/-- A two-row table with one attribute, one class and one meta column. -/
def tbl2 : Table := ⟨["a"], ["c"], ["m"], [row0, row1]⟩

/-- A zero-row table with 1501 attribute columns. -/
def emptyWide : Table := ⟨List.replicate 1501 "a", [], [], []⟩

/-- A two-row table with 1501 attribute columns. -/
def wideTbl : Table := ⟨List.replicate 1501 "a", [], [], [⟨[1], [], []⟩, ⟨[2], [], []⟩]⟩

/-- A library that fits successfully, labelling the first row an inlier and
the second an outlier. -/
def oracleOK : Oracle := fun _ _ => FitOutcome.ok [1, -1] [3, 4]

/-- A library whose fit raises `ValueError` (singular covariance). -/
def oracleVal : Oracle := fun _ _ => FitOutcome.valueError

/-- A library whose fit raises `MemoryError`. -/
def oracleMem : Oracle := fun _ _ => FitOutcome.memoryError

/-- A library whose fit raises some unexpected exception. -/
def oracleOther : Oracle := fun _ _ => FitOutcome.otherError

/-- The fresh widget with the sample table already set as its data. -/
def wData : Widget := { initWidget with data := some tbl2 }

/-- The fresh widget switched to the Covariance method. -/
def wCov : Widget := { initWidget with outlier_method := Method.Covariance }

/-- The inliers table of a successful `oracleOK` run on the sample data. -/
def inlW : Table :=
  (amended_data wData.outlier_method tbl2 [3, 4]).selectRows (whereEq [1, -1] 1)

/-- The outliers table of a successful `oracleOK` run on the sample data. -/
def outlW : Table :=
  (amended_data wData.outlier_method tbl2 [3, 4]).selectRows (whereEq [1, -1] (-1))

/-- The widget state after a successful `oracleOK` commit on the sample
data. -/
def wRunOK : Widget :=
  { wData with
      err_singular_cov := false
      err_memory := false
      n_inliers := some inlW.numRows
      n_outliers := some outlW.numRows
      output_summary := outputSummaryOf (some inlW)
      out_inliers := some inlW
      out_outliers := some outlW }

/-! ### Helper lemmas -/

/-- Selecting through a successor index skips the head row. -/
lemma getRows_map_succ (r : TRow) (rs : List TRow) (idx : List ℕ) :
    getRows (r :: rs) (idx.map (· + 1)) = getRows rs idx := by
  simp [getRows, List.filterMap_map, Function.comp_def]

/-- Selecting index `0` first takes the head row. -/
lemma getRows_cons_zero (r : TRow) (rs : List TRow) (idx : List ℕ) :
    getRows (r :: rs) (0 :: idx) = r :: getRows (r :: rs) idx := by
  simp [getRows, List.filterMap_cons]

/-- Fancy-indexing with `np.where(ys == v)[0]` is exactly the order-preserving
filter of the rows paired with label `v`. -/
lemma getRows_whereEq (v : ℤ) (ys : List ℤ) (rows : List TRow)
    (h : ys.length = rows.length) :
    getRows rows (whereEq ys v) =
      ((ys.zip rows).filter fun p => p.1 == v).map Prod.snd := by
  induction ys generalizing rows with
  | nil =>
    cases rows with
    | nil => simp [whereEq, getRows]
    | cons r rs => simp at h
  | cons a as ih =>
    cases rows with
    | nil => simp at h
    | cons r rs =>
      have h' : as.length = rs.length := by simpa using h
      by_cases hav : a = v
      · rw [show whereEq (a :: as) v = 0 :: (whereEq as v).map (· + 1) from by
          simp [whereEq, hav]]
        rw [getRows_cons_zero, getRows_map_succ, ih rs h']
        simp [List.zip_cons_cons, List.filter_cons, hav]
      · rw [show whereEq (a :: as) v = (whereEq as v).map (· + 1) from by
          simp [whereEq, hav]]
        rw [getRows_map_succ, ih rs h']
        simp [List.zip_cons_cons, List.filter_cons, hav]

/-- A member of `whereEq ys v` is an index at which `ys` holds `v`. -/
lemma get?_eq_of_mem_whereEq {ys : List ℤ} {v : ℤ} {i : ℕ}
    (h : i ∈ whereEq ys v) : ys.get? i = some v := by
  induction ys generalizing i with
  | nil => simp [whereEq] at h
  | cons a as ih =>
    by_cases hav : a = v
    · simp only [whereEq, if_pos hav, List.mem_cons, List.mem_map] at h
      rcases h with rfl | ⟨j, hj, rfl⟩
      · simp [hav]
      · simpa using ih hj
    · simp only [whereEq, if_neg hav, List.mem_map] at h
      rcases h with ⟨j, hj, rfl⟩
      simpa using ih hj

/-- The index sets of two distinct labels are disjoint. -/
lemma whereEq_disjoint {v v' : ℤ} (hvv : v ≠ v') (ys : List ℤ) :
    List.Disjoint (whereEq ys v) (whereEq ys v') := by
  intro i h1 h2
  have e1 := get?_eq_of_mem_whereEq h1
  have e2 := get?_eq_of_mem_whereEq h2
  rw [e1] at e2
  exact hvv (Option.some.inj e2)

/-- When every label is `1` or `-1`, the label-`1` rows followed by the
label-`-1` rows are a permutation of all rows. -/
lemma filter_labels_perm (ys : List ℤ) (rows : List TRow)
    (h : ys.length = rows.length)
    (hlab : ∀ l ∈ ys, l = 1 ∨ l = -1) :
    (((ys.zip rows).filter fun p => p.1 == 1).map Prod.snd ++
      ((ys.zip rows).filter fun p => p.1 == (-1)).map Prod.snd).Perm rows := by
  have hneg : ((ys.zip rows).filter fun p => p.1 == (-1)) =
      ((ys.zip rows).filter fun p => !(p.1 == 1)) := by
    apply List.filter_congr
    intro p hp
    obtain ⟨p1, p2⟩ := p
    have hy : p1 ∈ ys := (List.of_mem_zip hp).1
    rcases hlab p1 hy with h1 | h1 <;> simp [h1]
  have hperm : (((ys.zip rows).filter fun p => p.1 == 1) ++
      ((ys.zip rows).filter fun p => p.1 == (-1))).Perm (ys.zip rows) := by
    rw [hneg]
    exact List.filter_append_perm _ _
  have hmap := hperm.map Prod.snd
  rw [List.map_append] at hmap
  rwa [List.map_snd_zip ys rows h.ge] at hmap

/-- The rows selected for one label form a sublist (order preserved). -/
lemma filter_labels_sublist (ys : List ℤ) (rows : List TRow) (v : ℤ)
    (h : ys.length = rows.length) :
    (((ys.zip rows).filter fun p => p.1 == v).map Prod.snd).Sublist rows := by
  have hs : ((ys.zip rows).filter fun p => p.1 == v).Sublist (ys.zip rows) :=
    List.filter_sublist _
  have := hs.map Prod.snd
  rwa [List.map_snd_zip ys rows h.ge] at this

/-- `mkLearner` ignores the error flags. -/
lemma mkLearner_clear (w : Widget) :
    mkLearner { w with err_singular_cov := false, err_memory := false } = mkLearner w := rfl

/-- `amended_data` never touches the attribute columns. -/
lemma amended_data_attrs (m : Method) (t : Table) (mahal : List ℚ) :
    (amended_data m t mahal).attrs = t.attrs := by
  cases m <;> simp [amended_data]

/-- `amended_data` never touches the class columns. -/
lemma amended_data_classVars (m : Method) (t : Table) (mahal : List ℚ) :
    (amended_data m t mahal).classVars = t.classVars := by
  cases m <;> simp [amended_data]

/-- With one score per row, `amended_data` keeps the row count. -/
lemma amended_data_rows_length (m : Method) (t : Table) (mahal : List ℚ)
    (h : mahal.length = t.rows.length) :
    (amended_data m t mahal).rows.length = t.rows.length := by
  cases m with
  | OneClassSVM => simp [amended_data]
  | Covariance => simp [amended_data, h]

/-- Computation law for `_get_outliers` when the library fit succeeds. -/
lemma get_outliers_ok (o : Oracle) (w : Widget) (t : Table)
    (y_pred : List ℤ) (mahal : List ℚ)
    (hfit : o (mkLearner w) t = FitOutcome.ok y_pred mahal) :
    get_outliers o w t =
      Except.ok
        ({ w with err_singular_cov := false, err_memory := false,
                  n_inliers := some ((amended_data w.outlier_method t mahal).selectRows
                    (whereEq y_pred 1)).numRows,
                  n_outliers := some ((amended_data w.outlier_method t mahal).selectRows
                    (whereEq y_pred (-1))).numRows },
         some ((amended_data w.outlier_method t mahal).selectRows (whereEq y_pred 1)),
         some ((amended_data w.outlier_method t mahal).selectRows (whereEq y_pred (-1)))) := by
  simp only [get_outliers, detect_outliers, mkLearner_clear, hfit]

/-- Computation law for `_get_outliers` when the fit raises `ValueError`. -/
lemma get_outliers_valueError (o : Oracle) (w : Widget) (t : Table)
    (h : o (mkLearner w) t = FitOutcome.valueError) :
    get_outliers o w t =
      Except.ok ({ w with err_singular_cov := true, err_memory := false }, none, none) := by
  simp only [get_outliers, detect_outliers, mkLearner_clear, h]

/-- Computation law for `_get_outliers` when the fit raises `MemoryError`. -/
lemma get_outliers_memoryError (o : Oracle) (w : Widget) (t : Table)
    (h : o (mkLearner w) t = FitOutcome.memoryError) :
    get_outliers o w t =
      Except.ok ({ w with err_singular_cov := false, err_memory := true }, none, none) := by
  simp only [get_outliers, detect_outliers, mkLearner_clear, h]

/-- Computation law for `_get_outliers` when the fit raises any other
exception: it escapes. -/
lemma get_outliers_otherError (o : Oracle) (w : Widget) (t : Table)
    (h : o (mkLearner w) t = FitOutcome.otherError) :
    get_outliers o w t =
      Except.error (PyExc.otherError,
        { w with err_singular_cov := false, err_memory := false }) := by
  simp only [get_outliers, detect_outliers, mkLearner_clear, h]

/-- `commit` only writes the counts, the output summary and the two output
slots: methods, settings, data, warning, control-enabled flags and the
input summary come through unchanged (also when the run propagates an
exception). -/
lemma commit_fields (o : Oracle) (w : Widget) :
    (postWidget (commit o w)).outlier_method = w.outlier_method ∧
    (postWidget (commit o w)).nu = w.nu ∧
    (postWidget (commit o w)).gamma = w.gamma ∧
    (postWidget (commit o w)).cont = w.cont ∧
    (postWidget (commit o w)).empirical_covariance = w.empirical_covariance ∧
    (postWidget (commit o w)).support_fraction = w.support_fraction ∧
    (postWidget (commit o w)).data = w.data ∧
    (postWidget (commit o w)).warn_disabled_cov = w.warn_disabled_cov ∧
    (postWidget (commit o w)).rb_cov_enabled = w.rb_cov_enabled ∧
    (postWidget (commit o w)).l_cov_enabled = w.l_cov_enabled ∧
    (postWidget (commit o w)).cont_slider_enabled = w.cont_slider_enabled ∧
    (postWidget (commit o w)).cb_emp_cov_enabled = w.cb_emp_cov_enabled ∧
    (postWidget (commit o w)).support_fraction_spin_enabled = w.support_fraction_spin_enabled ∧
    (postWidget (commit o w)).input_summary = w.input_summary := by
  unfold commit
  rcases hd : w.data with _ | t
  · simp [postWidget, hd]
  · simp only [hd]
    by_cases ht : t.pyTruthy
    · simp only [ht, if_true]
      rcases ho : o (mkLearner { w with data := some t, n_inliers := none, n_outliers := none }) t
        with ⟨y, m⟩ | _ | _ | _
      · rw [get_outliers_ok _ _ _ _ _ ho]
        simp [postWidget]
      · rw [get_outliers_valueError _ _ _ ho]
        simp [postWidget]
      · rw [get_outliers_memoryError _ _ _ ho]
        simp [postWidget]
      · rw [get_outliers_otherError _ _ _ ho]
        simp [postWidget]
    · simp [ht, postWidget]

/-- `commit` with no (or only falsy) data short-circuits: counts reset,
summary `NoOutput`, both outputs absent. -/
lemma commit_none (o : Oracle) (w : Widget) (hd : w.data = none) :
    commit o w = Except.ok
      { w with n_inliers := none, n_outliers := none,
               output_summary := none, out_inliers := none, out_outliers := none } := by
  simp [commit, hd]

/-- `commit` on truthy data whose fit raises `ValueError`. -/
lemma commit_valueError (o : Oracle) (w : Widget) (t : Table)
    (hd : w.data = some t) (ht : t.pyTruthy = true)
    (ho : o (mkLearner w) t = FitOutcome.valueError) :
    commit o w = Except.ok
      { w with n_inliers := none, n_outliers := none,
               err_singular_cov := true, err_memory := false,
               output_summary := none, out_inliers := none, out_outliers := none } := by
  simp only [commit, hd, ht, if_true]
  rw [get_outliers_valueError o
    { w with data := some t, n_inliers := none, n_outliers := none } t ho]
  simp [outputSummaryOf, hd]

/-- `commit` on truthy data whose fit raises `MemoryError`. -/
lemma commit_memoryError (o : Oracle) (w : Widget) (t : Table)
    (hd : w.data = some t) (ht : t.pyTruthy = true)
    (ho : o (mkLearner w) t = FitOutcome.memoryError) :
    commit o w = Except.ok
      { w with n_inliers := none, n_outliers := none,
               err_singular_cov := false, err_memory := true,
               output_summary := none, out_inliers := none, out_outliers := none } := by
  simp only [commit, hd, ht, if_true]
  rw [get_outliers_memoryError o
    { w with data := some t, n_inliers := none, n_outliers := none } t ho]
  simp [outputSummaryOf, hd]

/-- `commit` on truthy data whose fit succeeds: counts, summary and both
outputs are published. -/
lemma commit_ok (o : Oracle) (w : Widget) (t : Table) (y : List ℤ) (m : List ℚ)
    (hd : w.data = some t) (ht : t.pyTruthy = true)
    (ho : o (mkLearner w) t = FitOutcome.ok y m) :
    commit o w = Except.ok
      { w with
          err_singular_cov := false
          err_memory := false
          n_inliers := some
            ((amended_data w.outlier_method t m).selectRows (whereEq y 1)).numRows
          n_outliers := some
            ((amended_data w.outlier_method t m).selectRows (whereEq y (-1))).numRows
          output_summary := outputSummaryOf
            (some ((amended_data w.outlier_method t m).selectRows (whereEq y 1)))
          out_inliers := some ((amended_data w.outlier_method t m).selectRows (whereEq y 1))
          out_outliers := some
            ((amended_data w.outlier_method t m).selectRows (whereEq y (-1))) } := by
  simp only [commit, hd, ht, if_true]
  rw [get_outliers_ok o
    { w with data := some t, n_inliers := none, n_outliers := none } t y m ho]

/-- `enable_controls` when the guard fires (truthy data, too many
features). -/
lemma enable_controls_guard (w : Widget) (t : Table)
    (hd : w.data = some t) (ht : t.pyTruthy = true)
    (ha : t.attrs.length > MAX_FEATURES) :
    enable_controls w =
      { w with outlier_method := Method.OneClassSVM
               rb_cov_enabled := false
               l_cov_enabled := false
               cont_slider_enabled := false
               cb_emp_cov_enabled := false
               support_fraction_spin_enabled := false
               warn_disabled_cov := true } := by
  simp [enable_controls, enable_covariance, hd, ht, ha]

/-- `enable_controls` when the guard does not fire on a present dataset. -/
lemma enable_controls_of_false (w : Widget) (t : Table) (hd : w.data = some t)
    (h : (t.pyTruthy && decide (t.attrs.length > MAX_FEATURES)) = false) :
    enable_controls w = enable_covariance w true := by
  simp only [enable_controls, enable_covariance]
  simp [hd, h]

/-- `enable_controls` with no dataset. -/
lemma enable_controls_none (w : Widget) (hd : w.data = none) :
    enable_controls w = enable_covariance w true := by
  simp [enable_controls, enable_covariance, hd]

/-- Row `i` of the Mahalanobis-augmented row list: the original row with the
`i`-th score appended to its metas. -/
lemma zip_map_get? (rows : List TRow) (mahal : List ℚ) (i : ℕ) (r : TRow) (mv : ℚ)
    (hr : rows.get? i = some r) (hm : mahal.get? i = some mv) :
    ((rows.zip mahal).map fun p => { p.1 with m := p.1.m ++ [p.2] }).get? i =
      some ⟨r.x, r.y, r.m ++ [mv]⟩ := by
  induction rows generalizing mahal i with
  | nil => simp at hr
  | cons a as ih =>
    cases mahal with
    | nil => simp at hm
    | cons b bs =>
      cases i with
      | zero =>
        simp only [List.get?] at hr hm
        obtain rfl := Option.some.inj hr
        obtain rfl := Option.some.inj hm
        rfl
      | succ n =>
        simp only [List.get?] at hr hm
        simpa using ih bs n hr hm

/-! ### Claim theorems -/

/-- C1: for every dataset and valid parameter combination, a successful
detection run partitions the (possibly column-augmented) dataset by
predicted label: the inliers output is exactly the rows with label `+1` and
the outliers output exactly the rows with label `-1`, each preserving the
augmented dataset's row order (they are sublists) and columns; no row
appears in both outputs (the two index sets are disjoint) and together they
reconstitute the augmented dataset exactly (their concatenation is a
permutation of it, with matching total row count). -/
theorem C1_split_partitions (o : Oracle) (w : Widget) (t : Table)
    (y_pred : List ℤ) (mahal : List ℚ) (w' : Widget) (inl outl ad : Table)
    (hfit : o (mkLearner w) t = FitOutcome.ok y_pred mahal)
    (hlen : y_pred.length = t.numRows)
    (hmlen : mahal.length = t.numRows)
    (hlab : ∀ l ∈ y_pred, l = 1 ∨ l = -1)
    (had : ad = amended_data w.outlier_method t mahal)
    (hrun : get_outliers o w t = Except.ok (w', some inl, some outl)) :
    (inl.attrs = ad.attrs ∧ inl.classVars = ad.classVars ∧ inl.metas = ad.metas) ∧
    (outl.attrs = ad.attrs ∧ outl.classVars = ad.classVars ∧ outl.metas = ad.metas) ∧
    inl.rows = ((y_pred.zip ad.rows).filter fun p => p.1 == 1).map Prod.snd ∧
    outl.rows = ((y_pred.zip ad.rows).filter fun p => p.1 == (-1)).map Prod.snd ∧
    inl.rows.Sublist ad.rows ∧ outl.rows.Sublist ad.rows ∧
    List.Disjoint (whereEq y_pred 1) (whereEq y_pred (-1)) ∧
    (inl.rows ++ outl.rows).Perm ad.rows ∧
    inl.numRows + outl.numRows = ad.numRows := by
  rw [get_outliers_ok o w t y_pred mahal hfit] at hrun
  simp only [Except.ok.injEq, Prod.mk.injEq, Option.some.injEq] at hrun
  obtain ⟨-, hinl, houtl⟩ := hrun
  subst hinl houtl had
  have hadlen : y_pred.length = (amended_data w.outlier_method t mahal).rows.length := by
    rw [amended_data_rows_length w.outlier_method t mahal hmlen]
    exact hlen
  have hrows1 : ((amended_data w.outlier_method t mahal).selectRows (whereEq y_pred 1)).rows
      = ((y_pred.zip (amended_data w.outlier_method t mahal).rows).filter
          fun p => p.1 == 1).map Prod.snd :=
    getRows_whereEq 1 y_pred _ hadlen
  have hrows2 : ((amended_data w.outlier_method t mahal).selectRows (whereEq y_pred (-1))).rows
      = ((y_pred.zip (amended_data w.outlier_method t mahal).rows).filter
          fun p => p.1 == (-1)).map Prod.snd :=
    getRows_whereEq (-1) y_pred _ hadlen
  have hperm : (((amended_data w.outlier_method t mahal).selectRows (whereEq y_pred 1)).rows ++
      ((amended_data w.outlier_method t mahal).selectRows (whereEq y_pred (-1))).rows).Perm
      (amended_data w.outlier_method t mahal).rows := by
    rw [hrows1, hrows2]
    exact filter_labels_perm _ _ hadlen hlab
  refine ⟨⟨rfl, rfl, rfl⟩, ⟨rfl, rfl, rfl⟩, hrows1, hrows2, ?_, ?_,
    whereEq_disjoint (by decide) y_pred, hperm, ?_⟩
  · rw [hrows1]
    exact filter_labels_sublist y_pred _ 1 hadlen
  · rw [hrows2]
    exact filter_labels_sublist y_pred _ (-1) hadlen
  · have hcount := hperm.length_eq
    rw [List.length_append] at hcount
    simpa [Table.numRows, Table.selectRows] using hcount

/-- C3: for a Covariance run, the augmented dataset is the input plus
exactly one extra meta column named "Mahalanobis" holding the per-row
score, with row order, row count and all original columns preserved; a
KernelSVM run leaves the dataset exactly unchanged. -/
theorem C3_amended_dataset (t : Table) (mahal : List ℚ)
    (h : mahal.length = t.numRows) :
    (amended_data Method.Covariance t mahal).attrs = t.attrs ∧
    (amended_data Method.Covariance t mahal).classVars = t.classVars ∧
    (amended_data Method.Covariance t mahal).metas = t.metas ++ ["Mahalanobis"] ∧
    (amended_data Method.Covariance t mahal).metas.length = t.metas.length + 1 ∧
    (amended_data Method.Covariance t mahal).numRows = t.numRows ∧
    (∀ i r mv, t.rows.get? i = some r → mahal.get? i = some mv →
      (amended_data Method.Covariance t mahal).rows.get? i =
        some ⟨r.x, r.y, r.m ++ [mv]⟩) ∧
    amended_data Method.OneClassSVM t mahal = t := by
  refine ⟨amended_data_attrs _ t mahal, amended_data_classVars _ t mahal, ?_, ?_,
    amended_data_rows_length _ t mahal h, ?_, ?_⟩
  · simp [amended_data]
  · simp [amended_data]
  · intro i r mv hr hm
    simpa [amended_data] using zip_map_get? t.rows mahal i r mv hr hm
  · simp [amended_data]

/-- C3 witness: on the sample table with scores `[3, 4]`, the Covariance
augmentation appends the "Mahalanobis" column and gives row 0 its score,
while the KernelSVM augmentation is the identity. -/
theorem C3_amended_dataset_witness :
    (amended_data Method.Covariance tbl2 [3, 4]).metas = tbl2.metas ++ ["Mahalanobis"] ∧
    (amended_data Method.Covariance tbl2 [3, 4]).rows.get? 0 =
      some ⟨row0.x, row0.y, row0.m ++ [3]⟩ ∧
    amended_data Method.OneClassSVM tbl2 [3, 4] = tbl2 :=
  ⟨(C3_amended_dataset tbl2 [3, 4] (by decide)).2.2.1,
   (C3_amended_dataset tbl2 [3, 4] (by decide)).2.2.2.2.2.1 0 row0 3 rfl rfl,
   (C3_amended_dataset tbl2 [3, 4] (by decide)).2.2.2.2.2.2⟩

/-- C5: the parameters handed to the external estimator are derived from
the stored settings exactly as specified: KernelSVM fits with
`nu = errorBoundFraction/100` and `gamma = kernelCoefficient`; Covariance
fits with `contamination = contamination/100` and passes the stored support
fraction only when `useEmpiricalSupport` is set, otherwise `None`. -/
theorem C5_learner_params (w : Widget) :
    (w.outlier_method = Method.OneClassSVM →
      mkLearner w = LearnerSpec.oneClassSVM w.gamma ((w.nu : ℚ) / 100)) ∧
    (w.outlier_method = Method.Covariance →
      mkLearner w = LearnerSpec.ellipticEnvelope
        (if w.empirical_covariance then some w.support_fraction else none)
        ((w.cont : ℚ) / 100)) := by
  constructor
  · intro h
    simp [mkLearner, h]
  · intro h
    simp [mkLearner, h]

/-- C5 witness: the default widget hands over an SVM learner with
`nu = 50/100` and `gamma = 0.01`; switched to Covariance it hands over an
elliptic-envelope learner with the default support fraction and
`contamination = 10/100`. -/
theorem C5_learner_params_witness :
    mkLearner initWidget =
      LearnerSpec.oneClassSVM initWidget.gamma ((initWidget.nu : ℚ) / 100) ∧
    mkLearner wCov = LearnerSpec.ellipticEnvelope none ((wCov.cont : ℚ) / 100) :=
  ⟨(C5_learner_params initWidget).1 rfl, (C5_learner_params wCov).2 rfl⟩

/-- C6: adjusting any control of a parameter group sets the active method
to that group's method, whatever was active before: the nu slider and the
kernel-coefficient spin box select KernelSVM; the contamination slider, the
support-fraction spin box and the empirical-support checkbox select
Covariance. -/
theorem C6_controls_select_method (w : Widget) (n : ℕ) (q : ℚ) :
    (adjust_nu w n).outlier_method = Method.OneClassSVM ∧
    (adjust_gamma w q).outlier_method = Method.OneClassSVM ∧
    (adjust_cont w n).outlier_method = Method.Covariance ∧
    (adjust_support_fraction w q).outlier_method = Method.Covariance ∧
    (toggle_empirical w).outlier_method = Method.Covariance :=
  ⟨rfl, rfl, rfl, rfl, rfl⟩

/-- C2 counterexample: a zero-row dataset with 1501 feature columns arrives
while the Covariance method is active, yet the method is not forced to
KernelSVM, the Covariance radio button stays enabled and no warning is
raised — the Python test `if self.data and ...` is false for an empty
table, so the guard never fires. -/
theorem C2_counterexample :
    emptyWide.numRows = 0 ∧
    emptyWide.attrs.length > MAX_FEATURES ∧
    (postWidget (set_data oracleVal wCov (some emptyWide))).outlier_method =
      Method.Covariance ∧
    (postWidget (set_data oracleVal wCov (some emptyWide))).rb_cov_enabled = true ∧
    (postWidget (set_data oracleVal wCov (some emptyWide))).warn_disabled_cov = false :=
  ⟨rfl, by decide, rfl, rfl, rfl⟩

/-- C2 (amended): for every NONEMPTY dataset with more than 1500 feature
columns, arrival forces the method to KernelSVM, disables all five
Covariance-group controls and raises the "too many features" warning; for
every dataset with at most 1500 feature columns the controls are enabled
and the warning is not active.  (The original claim, quantified over all
datasets, fails on zero-row datasets: Python truthiness skips the guard.) -/
theorem C2_feature_guard_amended (o : Oracle) (w : Widget) (t : Table) :
    (t.rows ≠ [] → t.attrs.length > MAX_FEATURES →
      (postWidget (set_data o w (some t))).outlier_method = Method.OneClassSVM ∧
      (postWidget (set_data o w (some t))).rb_cov_enabled = false ∧
      (postWidget (set_data o w (some t))).l_cov_enabled = false ∧
      (postWidget (set_data o w (some t))).cont_slider_enabled = false ∧
      (postWidget (set_data o w (some t))).cb_emp_cov_enabled = false ∧
      (postWidget (set_data o w (some t))).support_fraction_spin_enabled = false ∧
      (postWidget (set_data o w (some t))).warn_disabled_cov = true) ∧
    (t.attrs.length ≤ MAX_FEATURES →
      (postWidget (set_data o w (some t))).rb_cov_enabled = true ∧
      (postWidget (set_data o w (some t))).l_cov_enabled = true ∧
      (postWidget (set_data o w (some t))).cont_slider_enabled = true ∧
      (postWidget (set_data o w (some t))).cb_emp_cov_enabled = true ∧
      (postWidget (set_data o w (some t))).support_fraction_spin_enabled = true ∧
      (postWidget (set_data o w (some t))).warn_disabled_cov = false) := by
  constructor
  · intro hne hgt
    have ht : t.pyTruthy = true := by
      cases hr : t.rows with
      | nil => exact absurd hr hne
      | cons a l => simp [Table.pyTruthy, hr]
    simp only [set_data]
    rw [enable_controls_guard _ t rfl ht hgt]
    obtain ⟨h1, -, -, -, -, -, -, h8, h9, h10, h11, h12, h13, -⟩ :=
      commit_fields o
        { clear_messages w with
            data := some t
            input_summary := inputSummaryOf (some t)
            outlier_method := Method.OneClassSVM
            rb_cov_enabled := false
            l_cov_enabled := false
            cont_slider_enabled := false
            cb_emp_cov_enabled := false
            support_fraction_spin_enabled := false
            warn_disabled_cov := true }
    exact ⟨h1, h9, h10, h11, h12, h13, h8⟩
  · intro hle
    have hngt : ¬(t.attrs.length > MAX_FEATURES) := by omega
    have hcond : (t.pyTruthy && decide (t.attrs.length > MAX_FEATURES)) = false := by
      simp [hngt]
    simp only [set_data]
    rw [enable_controls_of_false _ t rfl hcond]
    obtain ⟨-, -, -, -, -, -, -, h8, h9, h10, h11, h12, h13, -⟩ :=
      commit_fields o
        (enable_covariance
          { clear_messages w with
              data := some t
              input_summary := inputSummaryOf (some t) } true)
    exact ⟨h9, h10, h11, h12, h13, h8⟩

/-- C2 witness: a nonempty 1501-feature dataset forces KernelSVM and the
warning; a one-feature dataset keeps the controls enabled and no warning. -/
theorem C2_feature_guard_amended_witness :
    (postWidget (set_data oracleVal initWidget (some wideTbl))).outlier_method =
      Method.OneClassSVM ∧
    (postWidget (set_data oracleVal initWidget (some wideTbl))).warn_disabled_cov = true ∧
    (postWidget (set_data oracleVal wCov (some tbl2))).rb_cov_enabled = true ∧
    (postWidget (set_data oracleVal wCov (some tbl2))).warn_disabled_cov = false :=
  ⟨((C2_feature_guard_amended oracleVal initWidget wideTbl).1 (by decide) (by decide)).1,
   ((C2_feature_guard_amended oracleVal initWidget wideTbl).1 (by decide)
      (by decide)).2.2.2.2.2.2,
   ((C2_feature_guard_amended oracleVal wCov tbl2).2 (by decide)).1,
   ((C2_feature_guard_amended oracleVal wCov tbl2).2 (by decide)).2.2.2.2.2⟩

/-- C4: when a run fails with the singular-covariance error or the
out-of-memory error, the specific error is reported, both outputs become
absent and the summary counts become unknown; the same absent-output state
holds when there is no input dataset. -/
theorem C4_failure_outputs (o : Oracle) (w : Widget) :
    (∀ t, w.data = some t → t.pyTruthy = true →
      o (mkLearner w) t = FitOutcome.valueError →
      commit o w = Except.ok
        { w with n_inliers := none, n_outliers := none,
                 err_singular_cov := true, err_memory := false,
                 output_summary := none, out_inliers := none, out_outliers := none }) ∧
    (∀ t, w.data = some t → t.pyTruthy = true →
      o (mkLearner w) t = FitOutcome.memoryError →
      commit o w = Except.ok
        { w with n_inliers := none, n_outliers := none,
                 err_singular_cov := false, err_memory := true,
                 output_summary := none, out_inliers := none, out_outliers := none }) ∧
    (w.data = none →
      commit o w = Except.ok
        { w with n_inliers := none, n_outliers := none,
                 output_summary := none, out_inliers := none, out_outliers := none }) := by
  exact ⟨fun t => commit_valueError o w t, fun t => commit_memoryError o w t,
    commit_none o w⟩

/-- C4 witness: on the sample widget holding the two-row table, a
`ValueError` fit reports the singular-covariance error with absent outputs,
a `MemoryError` fit reports the memory error, and with no data both
outputs are absent. -/
theorem C4_failure_outputs_witness :
    commit oracleVal wData = Except.ok
      { wData with n_inliers := none, n_outliers := none,
                   err_singular_cov := true, err_memory := false,
                   output_summary := none, out_inliers := none, out_outliers := none } ∧
    commit oracleMem wData = Except.ok
      { wData with n_inliers := none, n_outliers := none,
                   err_singular_cov := false, err_memory := true,
                   output_summary := none, out_inliers := none, out_outliers := none } ∧
    commit oracleVal initWidget = Except.ok
      { initWidget with n_inliers := none, n_outliers := none,
                        output_summary := none, out_inliers := none,
                        out_outliers := none } :=
  ⟨(C4_failure_outputs oracleVal wData).1 tbl2 rfl (by decide) rfl,
   (C4_failure_outputs oracleMem wData).2.1 tbl2 rfl (by decide) rfl,
   (C4_failure_outputs oracleVal initWidget).2.2 rfl⟩

/-- C7: exactly the two anticipated failure kinds are caught and converted
to user-facing errors: `ValueError` raises the singular-covariance error
and `MemoryError` the memory error (both with no output); any other
exception kind propagates out of the run unhandled; and the
singular-covariance error is surfaced only when the failure was the
`ValueError`. -/
theorem C7_exception_taxonomy (o : Oracle) (w : Widget) (t : Table) :
    (o (mkLearner w) t = FitOutcome.valueError →
      get_outliers o w t = Except.ok
        ({ w with err_singular_cov := true, err_memory := false }, none, none)) ∧
    (o (mkLearner w) t = FitOutcome.memoryError →
      get_outliers o w t = Except.ok
        ({ w with err_singular_cov := false, err_memory := true }, none, none)) ∧
    (o (mkLearner w) t = FitOutcome.otherError →
      get_outliers o w t = Except.error (PyExc.otherError,
        { w with err_singular_cov := false, err_memory := false })) ∧
    (∀ w' r, get_outliers o w t = Except.ok (w', r) → w'.err_singular_cov = true →
      o (mkLearner w) t = FitOutcome.valueError) := by
  refine ⟨get_outliers_valueError o w t, get_outliers_memoryError o w t,
    get_outliers_otherError o w t, ?_⟩
  intro w' r hrun hflag
  rcases ho : o (mkLearner w) t with ⟨y, m⟩ | _ | _ | _
  · rw [get_outliers_ok _ _ _ _ _ ho] at hrun
    simp only [Except.ok.injEq, Prod.mk.injEq] at hrun
    obtain ⟨hw, -⟩ := hrun
    subst hw
    simp at hflag
  · rfl
  · rw [get_outliers_memoryError _ _ _ ho] at hrun
    simp only [Except.ok.injEq, Prod.mk.injEq] at hrun
    obtain ⟨hw, -⟩ := hrun
    subst hw
    simp at hflag
  · rw [get_outliers_otherError _ _ _ ho] at hrun
    simp at hrun

/-- C7 witness: on the sample table, the unexpected exception escapes
`_get_outliers`, and after a `MemoryError` run the singular-covariance flag
is indeed off. -/
theorem C7_exception_taxonomy_witness :
    get_outliers oracleOther initWidget tbl2 = Except.error (PyExc.otherError,
      { initWidget with err_singular_cov := false, err_memory := false }) ∧
    get_outliers oracleMem initWidget tbl2 = Except.ok
      ({ initWidget with err_singular_cov := false, err_memory := true }, none, none) :=
  ⟨(C7_exception_taxonomy oracleOther initWidget tbl2).2.2.1 rfl,
   (C7_exception_taxonomy oracleMem initWidget tbl2).2.1 rfl⟩

/-- C9: a zero-row input dataset is treated at the public interface exactly
like no input: no detection run is attempted (the result does not depend on
the learning library at all), and the resulting state is the no-input state
except for holding the dataset — outputs absent, counts and summaries
unknown. -/
theorem C9_empty_like_none (o o' : Oracle) (w : Widget) (t : Table)
    (h : t.rows = []) :
    set_data o w (some t) = set_data o' w (some t) ∧
    (∀ wn, set_data o w none = Except.ok wn →
      set_data o w (some t) = Except.ok { wn with data := some t }) := by
  have ht : t.pyTruthy = false := by simp [Table.pyTruthy, h]
  constructor
  · simp only [set_data]
    rw [enable_controls_of_false _ t rfl (by simp [ht])]
    simp [commit, enable_covariance, ht]
  · intro wn hn
    simp only [set_data] at hn ⊢
    rw [enable_controls_none _ rfl] at hn
    rw [enable_controls_of_false _ t rfl (by simp [ht])]
    simp only [commit, enable_covariance, clear_messages, inputSummaryOf, ht,
      Bool.false_eq_true, if_false, Except.ok.injEq] at hn ⊢
    subst hn
    simp

/-- C9 witness: the empty wide table behaves like no input on the fresh
widget. -/
theorem C9_empty_like_none_witness :
    set_data oracleVal initWidget (some emptyWide) =
      set_data oracleOK initWidget (some emptyWide) ∧
    set_data oracleVal initWidget (some emptyWide) =
      Except.ok { initWidget with data := some emptyWide } :=
  ⟨(C9_empty_like_none oracleVal oracleOK initWidget emptyWide rfl).1,
   (C9_empty_like_none oracleVal oracleOK initWidget emptyWide rfl).2 initWidget rfl⟩

/-- C10: every detection run first clears both error conditions, so a run
can leave at most one of the two errors set; a successful run (one that
returns tables) leaves both clear, whatever error state the widget was in
before; and even a propagating unexpected exception leaves both clear. -/
theorem C10_errors_cleared (o : Oracle) (w : Widget) (t : Table) :
    (∀ w' inl outl, get_outliers o w t = Except.ok (w', inl, outl) →
      ¬(w'.err_singular_cov = true ∧ w'.err_memory = true) ∧
      (inl.isSome → w'.err_singular_cov = false ∧ w'.err_memory = false)) ∧
    (∀ e w', get_outliers o w t = Except.error (e, w') →
      w'.err_singular_cov = false ∧ w'.err_memory = false) := by
  constructor
  · intro w' inl outl hrun
    rcases ho : o (mkLearner w) t with ⟨y, m⟩ | _ | _ | _
    · rw [get_outliers_ok _ _ _ _ _ ho] at hrun
      simp only [Except.ok.injEq, Prod.mk.injEq] at hrun
      obtain ⟨hw, -⟩ := hrun
      subst hw
      simp
    · rw [get_outliers_valueError _ _ _ ho] at hrun
      simp only [Except.ok.injEq, Prod.mk.injEq] at hrun
      obtain ⟨hw, hio⟩ := hrun
      subst hw
      obtain ⟨hi, -⟩ := hio
      subst hi
      simp
    · rw [get_outliers_memoryError _ _ _ ho] at hrun
      simp only [Except.ok.injEq, Prod.mk.injEq] at hrun
      obtain ⟨hw, hio⟩ := hrun
      subst hw
      obtain ⟨hi, -⟩ := hio
      subst hi
      simp
    · rw [get_outliers_otherError _ _ _ ho] at hrun
      simp at hrun
  · intro e w' hrun
    rcases ho : o (mkLearner w) t with ⟨y, m⟩ | _ | _ | _
    · rw [get_outliers_ok _ _ _ _ _ ho] at hrun
      simp at hrun
    · rw [get_outliers_valueError _ _ _ ho] at hrun
      simp at hrun
    · rw [get_outliers_memoryError _ _ _ ho] at hrun
      simp at hrun
    · rw [get_outliers_otherError _ _ _ ho] at hrun
      simp only [Except.error.injEq, Prod.mk.injEq] at hrun
      obtain ⟨-, hw⟩ := hrun
      subst hw
      simp

/-- C10 witness: a widget that enters the run with BOTH errors set comes
out of a successful run with both clear. -/
theorem C10_errors_cleared_witness :
    ({ { initWidget with err_singular_cov := true, err_memory := true } with
        err_singular_cov := false
        err_memory := false
        n_inliers := some
          ((amended_data initWidget.outlier_method tbl2 [3, 4]).selectRows
            (whereEq [1, -1] 1)).numRows
        n_outliers := some
          ((amended_data initWidget.outlier_method tbl2 [3, 4]).selectRows
            (whereEq [1, -1] (-1))).numRows } : Widget).err_singular_cov = false ∧
    ({ { initWidget with err_singular_cov := true, err_memory := true } with
        err_singular_cov := false
        err_memory := false
        n_inliers := some
          ((amended_data initWidget.outlier_method tbl2 [3, 4]).selectRows
            (whereEq [1, -1] 1)).numRows
        n_outliers := some
          ((amended_data initWidget.outlier_method tbl2 [3, 4]).selectRows
            (whereEq [1, -1] (-1))).numRows } : Widget).err_memory = false :=
  ((C10_errors_cleared oracleOK
      { initWidget with err_singular_cov := true, err_memory := true } tbl2).1
    _ _ _
    (get_outliers_ok oracleOK
      { initWidget with err_singular_cov := true, err_memory := true } tbl2
      [1, -1] [3, 4] rfl)).2 rfl

/-- C8: the report generator emits nothing whenever no successful run has
yet occurred — whenever either count is unknown, in particular after
setting no input dataset and after a failed run — and after a successful
run it reports the input row count, the inlier and outlier counts, the
chosen method and that method's active parameters. -/
theorem C8_report :
    (∀ w : Widget, (w.n_inliers = none ∨ w.n_outliers = none) → send_report w = []) ∧
    (∀ (o : Oracle) (w : Widget) (w' : Widget),
      set_data o w none = Except.ok w' → send_report w' = []) ∧
    (∀ (o : Oracle) (w : Widget) (t : Table) (w' : Widget),
      w.data = some t → t.pyTruthy = true →
      o (mkLearner w) t = FitOutcome.valueError →
      commit o w = Except.ok w' → send_report w' = []) ∧
    (∀ (o : Oracle) (w : Widget) (t : Table) (y : List ℤ) (m : List ℚ) (w' : Widget),
      w.data = some t → t.pyTruthy = true →
      o (mkLearner w) t = FitOutcome.ok y m →
      commit o w = Except.ok w' →
      send_report w' =
        [("Data",
          [("Input instances", RVal.nat t.numRows),
           ("Inliers", RVal.nat
             ((amended_data w.outlier_method t m).selectRows (whereEq y 1)).numRows),
           ("Outliers", RVal.nat
             ((amended_data w.outlier_method t m).selectRows (whereEq y (-1))).numRows)]),
         if w.outlier_method = Method.OneClassSVM then
           ("Detection",
            [("Detection method", RVal.str "One class SVM with non-linear kernel (RBF)"),
             ("Regularization (nu)", RVal.nat w.nu),
             ("Kernel coefficient", RVal.rat w.gamma)])
         else
           ("Detection",
            [("Detection method", RVal.str "Covariance estimator"),
             ("Contamination", RVal.nat w.cont),
             ("Support fraction", RVal.rat w.support_fraction)])]) := by
  refine ⟨?_, ?_, ?_, ?_⟩
  · intro w h
    rcases h with h | h <;> simp [send_report, h]
  · intro o w w' h
    simp only [set_data] at h
    have hd : (enable_controls
        { clear_messages w with data := none, input_summary := inputSummaryOf none }).data
        = none := by
      rw [enable_controls_none _ rfl]
      rfl
    rw [commit_none o _ hd] at h
    simp only [Except.ok.injEq] at h
    subst h
    simp [send_report]
  · intro o w t w' hd ht ho hc
    rw [commit_valueError o w t hd ht ho] at hc
    simp only [Except.ok.injEq] at hc
    subst hc
    simp [send_report]
  · intro o w t y m w' hd ht ho hc
    rw [commit_ok o w t y m hd ht ho] at hc
    simp only [Except.ok.injEq] at hc
    subst hc
    simp [send_report, hd]

/-- C8 witness: the fresh widget reports nothing; after a successful run
on the sample table the report holds the input/inlier/outlier counts, the
method and its parameters. -/
theorem C8_report_witness :
    send_report initWidget = [] ∧
    send_report wRunOK =
      [("Data",
        [("Input instances", RVal.nat tbl2.numRows),
         ("Inliers", RVal.nat inlW.numRows),
         ("Outliers", RVal.nat outlW.numRows)]),
       ("Detection",
        [("Detection method", RVal.str "One class SVM with non-linear kernel (RBF)"),
         ("Regularization (nu)", RVal.nat wData.nu),
         ("Kernel coefficient", RVal.rat wData.gamma)])] :=
  ⟨C8_report.1 initWidget (Or.inl rfl),
   C8_report.2.2.2 oracleOK wData tbl2 [1, -1] [3, 4] wRunOK rfl (by decide) rfl rfl⟩

/-- C1 witness: a concrete two-row run where row 0 is the inlier and row 1
the outlier; the two outputs together are a permutation of the (here
unchanged) dataset. -/
theorem C1_split_partitions_witness :
    ((((amended_data initWidget.outlier_method tbl2 [3, 4]).selectRows (whereEq [1, -1] 1)).rows ++
      ((amended_data initWidget.outlier_method tbl2 [3, 4]).selectRows
        (whereEq [1, -1] (-1))).rows).Perm
      (amended_data initWidget.outlier_method tbl2 [3, 4]).rows) :=
  (C1_split_partitions oracleOK initWidget tbl2 [1, -1] [3, 4]
    { initWidget with
        err_singular_cov := false
        err_memory := false
        n_inliers := some (((amended_data initWidget.outlier_method tbl2 [3, 4]).selectRows
          (whereEq [1, -1] 1)).numRows)
        n_outliers := some (((amended_data initWidget.outlier_method tbl2 [3, 4]).selectRows
          (whereEq [1, -1] (-1))).numRows) }
    ((amended_data initWidget.outlier_method tbl2 [3, 4]).selectRows (whereEq [1, -1] 1))
    ((amended_data initWidget.outlier_method tbl2 [3, 4]).selectRows (whereEq [1, -1] (-1)))
    (amended_data initWidget.outlier_method tbl2 [3, 4])
    rfl (by decide) (by decide) (by decide) rfl rfl).2.2.2.2.2.2.2.1

end OWOutliers
